import Mathlib

/-!
Verification of the RAG (retrieval-augmented generation) backend.

Shallow embedding of `rag-web-app/backend/rag.py` and
`rag-web-app/backend/app.py`.  Numeric scores are modelled as rationals,
external black-box services (PDF extraction, the text splitter, the
embedding-backed similarity search, the language model) are modelled as
function parameters, and the process / filesystem state touched by the
HTTP layer is modelled as an explicit `AppState` record.
-/

/-! ## String helpers

Python string and path operations used by the code, modelled on the
character list of a `String` so that everything reduces in the kernel. -/

/-- Python `str.strip()`: drop whitespace from both ends. -/
def pyStrip (s : String) : String :=
  ⟨(((s.data.dropWhile Char.isWhitespace).reverse.dropWhile Char.isWhitespace).reverse)⟩

/-- Python slicing `s[:n]` (by characters). -/
def strTake (n : ℕ) (s : String) : String := ⟨s.data.take n⟩

/-- Python `Path(p).name`: the final path component. -/
def lastPathComponent (s : String) : String :=
  ⟨((s.data.reverse.takeWhile (fun c => c ≠ '/')).reverse)⟩

/-- `source_path.startswith('http://') or source_path.startswith('https://')`. -/
def isUrl (s : String) : Bool :=
  "http://".data.isPrefixOf s.data || "https://".data.isPrefixOf s.data

/-- `urlparse(source_path)`: `netloc + (path[:50] if path else '')`, for a
string that starts with `http://` or `https://` (the success path of the
`try` block; `urlparse` does not raise on such strings). -/
def urlDisplayName (s : String) : String :=
  let afterScheme :=
    if "https://".data.isPrefixOf s.data then s.data.drop 8 else s.data.drop 7
  let netloc := afterScheme.takeWhile (fun c => c ≠ '/' && c ≠ '?' && c ≠ '#')
  let path := (afterScheme.dropWhile (fun c => c ≠ '/' && c ≠ '?' && c ≠ '#')).takeWhile
    (fun c => c ≠ '?' && c ≠ '#')
  ⟨netloc ++ path.take 50⟩

/-- `re.sub(r'[^a-zA-Z0-9._-]', '_', filename)` from `app.py`. -/
def sanitize_filename (s : String) : String :=
  ⟨s.data.map (fun c =>
    if c.isAlphanum || c = '.' || c = '_' || c = '-' then c else '_')⟩

/-- `safe_filename.endswith('.pdf')`. -/
def endsWithPdf (s : String) : Bool := ".pdf".data.isSuffixOf s.data

/-! ## Python `round`

Python `round` uses round-half-to-even (banker's rounding); `round(x, n)`
rounds to `n` decimal digits. -/

/-- Python `round(q)`: nearest integer, ties to even. -/
def pyRoundInt (q : ℚ) : ℤ :=
  if q - ⌊q⌋ = 1/2 then (if ⌊q⌋ % 2 = 0 then ⌊q⌋ else ⌊q⌋ + 1) else round q

/-- Python `round(q, 1)`. -/
def pyRound1 (q : ℚ) : ℚ := (pyRoundInt (q * 10) : ℚ) / 10

/-- Python `round(q, 2)`. -/
def pyRound2 (q : ℚ) : ℚ := (pyRoundInt (q * 100) : ℚ) / 100

/-! ## Data model -/

/-- A langchain `Document`: the page content plus the metadata keys the
code reads (`source`, `page`). -/
structure Document where
  page_content : String
  source : Option String
  page : Option ℤ
  deriving DecidableEq

/-- One persisted per-session index: the stored chunks together with the
embedding-backed similarity search it provides (`similarity_search_with_score`,
modelled as a black-box function from the query text to scored documents). -/
structure VectorDB where
  chunks : List Document
  search : String → List (Document × ℚ)

/-- `collection.count()`: number of stored chunks. -/
def VectorDB.count (db : VectorDB) : ℕ := db.chunks.length

/-- One `metadata` item emitted by `answer_question`. -/
structure MetaItem where
  chunk_id : ℕ
  source : String
  similarity_score : ℚ
  page : Option ℤ
  content_preview : String
  deriving DecidableEq

/-- The `technical_info` dictionary returned by `answer_question`. -/
structure TechInfo where
  total_chunks_in_db : ℕ
  chunks_retrieved_initial : ℕ
  chunks_after_similarity_filter : ℕ
  chunks_after_relevance_filter : ℕ
  chunks_used_for_answer : ℕ
  avg_similarity_score : ℚ
  max_similarity_score : ℚ
  min_similarity_score : ℚ
  similarity_threshold_applied : Option ℚ
  relevance_filter_applied : Bool
  embedding_model : String
  embedding_dimension : ℕ
  vector_db : String
  similarity_metric : String
  llm_model : String
  retrieval_method : String

/-- The `technical_info` dictionary returned by `ingest_document`. -/
structure IngestInfo where
  num_chunks : ℕ
  chunk_size : ℕ
  chunk_overlap : ℕ
  total_characters : ℕ
  avg_chunk_size : ℚ
  embedding_model : String
  embedding_dimension : ℕ
  vector_db : String
  source_type : String
  source : String

/-- The `technical_info` dictionary returned by `get_session_technical_info`. -/
structure SessionInfo where
  session_id : String
  num_chunks : ℕ
  embedding_model : String
  embedding_dimension : ℕ
  vector_db : String
  source_type : String
  source : String

/-! ## rag.py: score normalization and filtering -/

/-- `_normalize_similarity_score` from `rag.py`: normalize a raw
distance/similarity score to a 0-1 similarity score, then clamp. -/
def _normalize_similarity_score (raw_score : ℚ) : ℚ :=
  let score_float := raw_score
  let normalized_score :=
    if 0 ≤ score_float ∧ score_float ≤ 2 then
      1 - score_float / 2
    else if score_float < 0 then
      (score_float + 1) / 2
    else if 2 < score_float then
      max 0 (1 / (1 + (score_float - 2)))
    else
      score_float
  max 0 (min 1 normalized_score)

/-- `_filter_by_similarity_threshold` from `rag.py`: keep the pairs whose
normalized similarity is at least the threshold; `None` means no filtering. -/
def _filter_by_similarity_threshold (results : List (Document × ℚ))
    (threshold : Option ℚ) : List (Document × ℚ) :=
  match threshold with
  | none => results
  | some t => results.filter (fun dr => decide (t ≤ _normalize_similarity_score dr.2))

/-- `_check_relevance_llm` from `rag.py`: the documented placeholder for a
future LLM-based relevance check; always returns `(True, 1.0)`. -/
def _check_relevance_llm (doc_content : String) (question : String) : Bool × ℚ :=
  (true, 1)

/-! ## rag.py: answer_question -/

/-- `source_filename` computed inside the loop of `answer_question`:
URL origins display as host plus up to 50 path characters, file origins
display as the final path component, a missing origin displays as
`unknown`. -/
def display_source_name (source_path : String) : String :=
  if isUrl source_path then urlDisplayName source_path
  else if source_path = "unknown" then "unknown"
  else lastPathComponent source_path

/-- The body of the `for i, (doc, raw_score) in enumerate(results)` loop in
`answer_question`: builds the context block and the metadata list together,
with `i` the running enumeration index. -/
def build_context_metadata : ℕ → List (Document × ℚ) → String × List MetaItem
  | _, [] => ("", [])
  | i, (doc, raw_score) :: rest =>
    let source_path := doc.source.getD "unknown"
    let source_filename := display_source_name source_path
    let similarity_score_normalized := _normalize_similarity_score raw_score
    let similarity_score_percentage := pyRound1 (similarity_score_normalized * 100)
    let meta_item : MetaItem :=
      { chunk_id := i + 1
        source := source_filename
        similarity_score := similarity_score_percentage
        page := doc.page
        content_preview := strTake 200 doc.page_content }
    let tail := build_context_metadata (i + 1) rest
    ("Chunk " ++ Nat.repr (i + 1) ++ " (" ++ source_filename ++ "): "
        ++ doc.page_content ++ "\n\n" ++ tail.1,
      meta_item :: tail.2)

/-- `prompt.format(context=..., question=...)`: the grounded prompt sent to
the language model. -/
def prompt_format (context question : String) : String :=
  "\nAnswer ONLY using the context below.\nAdd the source filename (without path) after EACH sentence in [filename] format.\nUse only the filename, not the full path.\n\nContext:\n"
    ++ context ++ "\n\nQuestion:\n" ++ question ++ "\n"

/-- Python `max(l)` over a nonempty list (`0` is never reached: the code
guards every call with a nonemptiness check). -/
def pyListMax : List ℚ → ℚ
  | [] => 0
  | h :: t => t.foldl max h

/-- Python `min(l)` over a nonempty list. -/
def pyListMin : List ℚ → ℚ
  | [] => 0
  | h :: t => t.foldl min h

/-- `answer_question` from `rag.py`.

`search_results` is the output of the external
`vectordb.similarity_search_with_score(question, k=10)` call,
`total_chunks` is the external `collection.count()` value, and
`llm_invoke` is the external `llm.invoke(...).content` call.  The rest is
the `rag.py` pipeline: optional similarity filtering, the (placeholder)
relevance stage, context and metadata assembly, the single LLM call, and
the similarity statistics. -/
def answer_question (search_results : List (Document × ℚ)) (total_chunks : ℕ)
    (question : String) (llm_invoke : String → String)
    (similarity_threshold : Option ℚ := none)
    (use_relevance_filter : Bool := false) :
    String × List MetaItem × TechInfo :=
  let results := search_results
  let chunks_before_filter := results.length
  let results :=
    if similarity_threshold.isSome then
      _filter_by_similarity_threshold results similarity_threshold
    else results
  let chunks_after_similarity_filter := results.length
  let chunks_after_relevance_filter := chunks_after_similarity_filter
  -- `if use_relevance_filter: pass` — the relevance stage is a no-op
  let cm := build_context_metadata 0 results
  let context := cm.1
  let metadata := cm.2
  let chain_input := prompt_format context question
  let answer := llm_invoke chain_input
  let similarity_scores := metadata.map (fun meta => meta.similarity_score)
  let avg_similarity : ℚ :=
    if similarity_scores ≠ [] then
      similarity_scores.sum / (similarity_scores.length : ℚ)
    else 0
  let max_similarity : ℚ :=
    if similarity_scores ≠ [] then pyListMax similarity_scores else 0
  let min_similarity : ℚ :=
    if similarity_scores ≠ [] then pyListMin similarity_scores else 0
  let technical_info : TechInfo :=
    { total_chunks_in_db := total_chunks
      chunks_retrieved_initial := chunks_before_filter
      chunks_after_similarity_filter := chunks_after_similarity_filter
      chunks_after_relevance_filter := chunks_after_relevance_filter
      chunks_used_for_answer := results.length
      avg_similarity_score := pyRound2 avg_similarity
      max_similarity_score := pyRound2 max_similarity
      min_similarity_score := pyRound2 min_similarity
      similarity_threshold_applied := similarity_threshold
      relevance_filter_applied := use_relevance_filter
      embedding_model := "text-embedding-3-small"
      embedding_dimension := 1536
      vector_db := "ChromaDB"
      similarity_metric := "L2 Distance (normalized to 0-1, displayed as percentage)"
      llm_model := "gpt-4o-mini"
      retrieval_method := "similarity_search_with_score" }
  (answer, metadata, technical_info)

/-! ## Process and filesystem state

`app.py` keeps an in-memory `sessions` dict; `rag.py` persists each index
under `VECDB_DIR/session_id` and writes uploads under `UPLOADS_DIR`.
`AppState` is that state: association lists model the dicts/directories
(`List.lookup` finds the first binding, so consing a binding models
overwriting). -/

structure AppState where
  uploads : List String
  vecdb_dirs : List (String × VectorDB)
  sessions : List (String × VectorDB)

/-- `delete_session` from `rag.py`: if the persisted directory for this
session exists, remove it (`shutil.rmtree`); otherwise do nothing. -/
def delete_session (session_id : String) (s : AppState) : AppState :=
  if (s.vecdb_dirs.lookup session_id).isSome then
    { s with vecdb_dirs := s.vecdb_dirs.filter (fun p => p.1 != session_id) }
  else s

/-- `get_session_technical_info` from `rag.py`: `None` when no persisted
directory exists for the session, otherwise the session statistics, with
source type and name taken from a one-item `collection.peek` (the success
path of the surrounding `try` blocks; a Chroma failure on an existing
directory is an external-service failure, also answered with `None`). -/
def get_session_technical_info (session_id : String) (s : AppState) :
    Option SessionInfo :=
  match s.vecdb_dirs.lookup session_id with
  | none => none
  | some vectordb =>
    let peeked := vectordb.chunks.head?
    let st :=
      match peeked with
      | some d =>
        let source := d.source.getD "unknown"
        (if isUrl source then "URL" else "PDF", source)
      | none => ("Unknown", "unknown")
    some
      { session_id := session_id
        num_chunks := vectordb.count
        embedding_model := "text-embedding-3-small"
        embedding_dimension := 1536
        vector_db := "ChromaDB"
        source_type := st.1
        source := strTake 100 st.2 }

/-- The error responses (`HTTPException`s) of the `/ask` endpoint. -/
inductive AskError where
  | sessionIdRequired
  | questionRequired
  | questionTooLong
  | invalidSession
  deriving DecidableEq

/-- The `/ask` endpoint of `app.py`: validate the request, look the
session up in the in-memory `sessions` dict (404 `Invalid session` when
absent — the SessionNotFound condition), then run `answer_question` with
no threshold and no relevance filter. -/
def ask (s : AppState) (session_id question : String)
    (llm_invoke : String → String) :
    Except AskError (String × List MetaItem × TechInfo) :=
  if pyStrip session_id = "" then .error .sessionIdRequired
  else if pyStrip question = "" then .error .questionRequired
  else if question.length > 1000 then .error .questionTooLong
  else
    match s.sessions.lookup session_id with
    | none => .error .invalidSession
    | some vectordb =>
      .ok (answer_question (vectordb.search question) vectordb.count question
        llm_invoke none false)

/-- `ingest_document` from `rag.py`, as a state transition.

`extract` models `PyPDFLoader(file_path).load()`, `split_documents`
models `RecursiveCharacterTextSplitter(800, 200).split_documents`, and
`mk_search` models the embedding-backed search that
`Chroma.from_documents` gives the new index.  `session_id` is the fresh
`uuid4` value.  When extraction yields no documents the function raises
(`No text extracted from PDF`) before any index is persisted; otherwise
the index is persisted under the new session id. -/
def ingest_document (extract : String → List Document)
    (split_documents : List Document → List Document)
    (mk_search : List Document → String → List (Document × ℚ))
    (session_id : String) (s : AppState) (file_path : String) :
    Except String (String × VectorDB × IngestInfo) × AppState :=
  let docs := extract file_path
  if docs = [] then (.error "No text extracted from PDF", s)
  else
    let chunks := split_documents docs
    let total_chars : ℕ := (chunks.map (fun c => c.page_content.length)).sum
    let avg_chunk_size : ℚ :=
      if chunks ≠ [] then (total_chars : ℚ) / (chunks.length : ℚ) else 0
    let vectordb : VectorDB := { chunks := chunks, search := mk_search chunks }
    let technical_info : IngestInfo :=
      { num_chunks := chunks.length
        chunk_size := 800
        chunk_overlap := 200
        total_characters := total_chars
        avg_chunk_size := pyRound2 avg_chunk_size
        embedding_model := "text-embedding-3-small"
        embedding_dimension := 1536
        vector_db := "ChromaDB"
        source_type := "PDF"
        source := lastPathComponent file_path }
    (.ok (session_id, vectordb, technical_info),
      { s with vecdb_dirs := (session_id, vectordb) :: s.vecdb_dirs })

/-- The error responses of the `/upload` endpoint. -/
inductive UploadError where
  | noFilename
  | notPdf
  | fileTooLarge
  | processingError (msg : String)
  deriving DecidableEq

/-- Writing `file_path` in `wb` mode: the file exists afterwards
(overwriting any previous content). -/
def fsWrite (file_path : String) (uploads : List String) : List String :=
  if file_path ∈ uploads then uploads else file_path :: uploads

/-- The `/upload` endpoint of `app.py`: validate the filename and size,
write the uploaded bytes, run `ingest_document`, and on success register
the session in the in-memory dict.  On an ingestion error the written
file is removed (`os.remove`) and no session is registered. -/
def upload_pdf (s : AppState) (extract : String → List Document)
    (split_documents : List Document → List Document)
    (mk_search : List Document → String → List (Document × ℚ))
    (new_session_id : String) (filename : String) (file_size : ℕ) :
    Except UploadError (String × IngestInfo) × AppState :=
  if filename = "" then (.error .noFilename, s)
  else
    let safe_filename := sanitize_filename filename
    if ¬ endsWithPdf safe_filename then (.error .notPdf, s)
    else if file_size > 10 * 1024 * 1024 then (.error .fileTooLarge, s)
    else
      let file_path := safe_filename
      let s1 := { s with uploads := fsWrite file_path s.uploads }
      match ingest_document extract split_documents mk_search new_session_id s1 file_path with
      | (.ok (session_id, vectordb, technical_info), s2) =>
        (.ok (session_id, technical_info),
          { s2 with sessions := (session_id, vectordb) :: s2.sessions })
      | (.error msg, s2) =>
        (.error (.processingError msg),
          { s2 with uploads := s2.uploads.filter (fun p => p != file_path) })

/-! ## Concrete example values -/

/-- A concrete stored document. -/
def exDoc : Document :=
  { page_content := "text", source := some "doc.pdf", page := none }

/-- A concrete empty index. -/
def exDB : VectorDB := { chunks := [], search := fun _ => [] }

/-- A concrete state with one session registered both on disk and in the
in-memory dict. -/
def exState : AppState :=
  { uploads := [], vecdb_dirs := [("s1", exDB)], sessions := [("s1", exDB)] }

/-! ## Helper lemmas -/

theorem normalize_eq_l2 {x : ℚ} (h0 : 0 ≤ x) (h2 : x ≤ 2) :
    _normalize_similarity_score x = 1 - x / 2 := by
  show max 0 (min 1 (if 0 ≤ x ∧ x ≤ 2 then 1 - x / 2 else if x < 0 then
    (x + 1) / 2 else if 2 < x then max 0 (1 / (1 + (x - 2))) else x)) = 1 - x / 2
  rw [if_pos ⟨h0, h2⟩, min_eq_right (by linarith), max_eq_right (by linarith)]

theorem normalize_eq_cos {x : ℚ} (h1 : -1 ≤ x) (h0 : x < 0) :
    _normalize_similarity_score x = (x + 1) / 2 := by
  show max 0 (min 1 (if 0 ≤ x ∧ x ≤ 2 then 1 - x / 2 else if x < 0 then
    (x + 1) / 2 else if 2 < x then max 0 (1 / (1 + (x - 2))) else x)) = (x + 1) / 2
  rw [if_neg (by rintro ⟨h, -⟩; linarith), if_pos h0,
    min_eq_right (by linarith), max_eq_right (by linarith)]

theorem normalize_eq_decay {x : ℚ} (h : 2 < x) :
    _normalize_similarity_score x = max 0 (1 / (1 + (x - 2))) := by
  have hd : (0:ℚ) < 1 + (x - 2) := by linarith
  have hw0 : (0:ℚ) ≤ 1 / (1 + (x - 2)) := by positivity
  have hw1 : 1 / (1 + (x - 2)) ≤ (1:ℚ) := by
    rw [div_le_one hd]; linarith
  show max 0 (min 1 (if 0 ≤ x ∧ x ≤ 2 then 1 - x / 2 else if x < 0 then
    (x + 1) / 2 else if 2 < x then max 0 (1 / (1 + (x - 2))) else x))
    = max 0 (1 / (1 + (x - 2)))
  rw [if_neg (by rintro ⟨-, h'⟩; linarith), if_neg (by linarith), if_pos h,
    max_eq_right hw0, min_eq_right hw1, max_eq_right hw0]

theorem normalize_nonneg (x : ℚ) : 0 ≤ _normalize_similarity_score x :=
  le_max_left _ _

theorem normalize_le_one (x : ℚ) : _normalize_similarity_score x ≤ 1 :=
  max_le (by norm_num) (min_le_left _ _)

theorem pyRoundInt_eq_of_lt {q : ℚ} (h : q - ⌊q⌋ < 1/2) : pyRoundInt q = ⌊q⌋ := by
  unfold pyRoundInt
  rw [if_neg (ne_of_lt h), round_eq]
  apply Int.floor_eq_iff.mpr
  constructor
  · linarith [Int.floor_le q]
  · linarith

theorem pyRoundInt_eq_of_gt {q : ℚ} (h : 1/2 < q - ⌊q⌋) : pyRoundInt q = ⌊q⌋ + 1 := by
  have hub : q < ⌊q⌋ + 1 := Int.lt_floor_add_one q
  unfold pyRoundInt
  rw [if_neg (ne_of_gt h), round_eq]
  apply Int.floor_eq_iff.mpr
  constructor
  · push_cast
    linarith
  · push_cast
    linarith

theorem floor_le_pyRoundInt (q : ℚ) : ⌊q⌋ ≤ pyRoundInt q := by
  rcases lt_trichotomy (q - ⌊q⌋) (1/2) with h | h | h
  · rw [pyRoundInt_eq_of_lt h]
  · unfold pyRoundInt
    rw [if_pos h]
    split_ifs <;> omega
  · rw [pyRoundInt_eq_of_gt h]
    omega

theorem pyRoundInt_le_floor_add_one (q : ℚ) : pyRoundInt q ≤ ⌊q⌋ + 1 := by
  rcases lt_trichotomy (q - ⌊q⌋) (1/2) with h | h | h
  · rw [pyRoundInt_eq_of_lt h]
    omega
  · unfold pyRoundInt
    rw [if_pos h]
    split_ifs <;> omega
  · rw [pyRoundInt_eq_of_gt h]

theorem pyRoundInt_mono {a b : ℚ} (hab : a ≤ b) : pyRoundInt a ≤ pyRoundInt b := by
  rcases lt_or_ge ⌊a⌋ ⌊b⌋ with hf | hf
  · calc pyRoundInt a ≤ ⌊a⌋ + 1 := pyRoundInt_le_floor_add_one a
      _ ≤ ⌊b⌋ := by omega
      _ ≤ pyRoundInt b := floor_le_pyRoundInt b
  · have hfe : ⌊a⌋ = ⌊b⌋ := le_antisymm (Int.floor_le_floor hab) hf
    have hfq : ((⌊a⌋ : ℚ)) = ((⌊b⌋ : ℚ)) := by exact_mod_cast hfe
    have hfr : a - ⌊a⌋ ≤ b - ⌊b⌋ := by rw [← hfq]; linarith
    rcases lt_trichotomy (a - ⌊a⌋) (1/2) with ha | ha | ha
    · rw [pyRoundInt_eq_of_lt ha, hfe]
      exact floor_le_pyRoundInt b
    · rcases lt_or_eq_of_le (ha ▸ hfr) with hb | hb
      · rw [pyRoundInt_eq_of_gt hb]
        calc pyRoundInt a ≤ ⌊a⌋ + 1 := pyRoundInt_le_floor_add_one a
          _ = ⌊b⌋ + 1 := by omega
      · have : a = b := by rw [← hfq] at hb; linarith
        rw [this]
    · have hb : 1/2 < b - ⌊b⌋ := lt_of_lt_of_le ha hfr
      rw [pyRoundInt_eq_of_gt ha, pyRoundInt_eq_of_gt hb, hfe]

theorem pyRound1_mono {a b : ℚ} (hab : a ≤ b) : pyRound1 a ≤ pyRound1 b := by
  unfold pyRound1
  have h := pyRoundInt_mono (show a * 10 ≤ b * 10 by linarith)
  have h' : ((pyRoundInt (a * 10) : ℚ)) ≤ ((pyRoundInt (b * 10) : ℚ)) := by
    exact_mod_cast h
  linarith

theorem pyRound2_zero : pyRound2 0 = 0 := by
  norm_num [pyRound2, pyRoundInt]

theorem build_context_metadata_map_score (l : List (Document × ℚ)) :
    ∀ i : ℕ, ((build_context_metadata i l).2).map (fun m => m.similarity_score)
      = l.map (fun dr => pyRound1 (_normalize_similarity_score dr.2 * 100)) := by
  induction l with
  | nil => intro i; rfl
  | cons hd tl ih =>
    intro i
    obtain ⟨doc, raw⟩ := hd
    simp only [build_context_metadata, List.map_cons, ih (i + 1)]

theorem build_context_metadata_length (l : List (Document × ℚ)) (i : ℕ) :
    ((build_context_metadata i l).2).length = l.length := by
  have h := congrArg List.length (build_context_metadata_map_score l i)
  simpa using h

theorem build_context_metadata_chunk_id (l : List (Document × ℚ)) :
    ∀ (i j : ℕ) (h : j < ((build_context_metadata i l).2).length),
      (((build_context_metadata i l).2).get ⟨j, h⟩).chunk_id = i + j + 1 := by
  induction l with
  | nil => intro i j h; simp [build_context_metadata] at h
  | cons hd tl ih =>
    intro i j h
    obtain ⟨doc, raw⟩ := hd
    match j with
    | 0 => simp [build_context_metadata]
    | Nat.succ j' =>
      have h' : j' < ((build_context_metadata (i + 1) tl).2).length := by
        simpa [build_context_metadata] using h
      have hrec := ih (i + 1) j' h'
      have hget : (((build_context_metadata i ((doc, raw) :: tl)).2).get ⟨j' + 1, h⟩)
          = ((build_context_metadata (i + 1) tl).2).get ⟨j', h'⟩ := by
        simp [build_context_metadata]
      rw [hget, hrec]
      omega

theorem lookup_filter_ne {β : Type} (k : String) (l : List (String × β)) :
    (l.filter (fun p => p.1 != k)).lookup k = none := by
  induction l with
  | nil => rfl
  | cons a t ih =>
    by_cases h : a.1 = k
    · simpa [List.filter_cons, h] using ih
    · have hk : (k == a.1) = false := beq_eq_false_iff_ne.mpr (Ne.symm h)
      simp [List.filter_cons, bne_iff_ne, h, List.lookup, hk, ih]

/-! ## Claims -/

/-- Claim C1: `_normalize_similarity_score` is total, range-correct
(always in `[0,1]`, the final value being clamped there), maps `0 ↦ 1`,
`1 ↦ 1/2`, `2 ↦ 0`, `-1 ↦ 0`, equals `(x+1)/2` on `[-1,0)`, `1 - x/2`
on `[0,2]`, and `max 0 (1/(1+(x-2)))` for `x > 2`. -/
theorem normalize_similarity_score_spec (x : ℚ) :
    0 ≤ _normalize_similarity_score x ∧
    _normalize_similarity_score x ≤ 1 ∧
    _normalize_similarity_score 0 = 1 ∧
    _normalize_similarity_score 1 = 1/2 ∧
    _normalize_similarity_score 2 = 0 ∧
    _normalize_similarity_score (-1) = 0 ∧
    (-1 ≤ x → x < 0 → _normalize_similarity_score x = (x + 1) / 2) ∧
    (0 ≤ x → x ≤ 2 → _normalize_similarity_score x = 1 - x / 2) ∧
    (2 < x → _normalize_similarity_score x = max 0 (1 / (1 + (x - 2)))) := by
  refine ⟨normalize_nonneg x, normalize_le_one x, by
      norm_num [_normalize_similarity_score], by
      norm_num [_normalize_similarity_score], by
      norm_num [_normalize_similarity_score], by
      norm_num [_normalize_similarity_score],
    fun h1 h0 => normalize_eq_cos h1 h0,
    fun h0 h2 => normalize_eq_l2 h0 h2,
    fun h => normalize_eq_decay h⟩

/-- Witness for C1: at `x = -1/2` the hypotheses of the piecewise branches
are discharged concretely. -/
theorem normalize_similarity_score_spec_witness :
    _normalize_similarity_score (-1/2) = ((-1/2 : ℚ) + 1) / 2 :=
  (normalize_similarity_score_spec (-1/2)).2.2.2.2.2.2.1 (by norm_num) (by norm_num)

/-- Claim C3: threshold filtering is monotonic: for thresholds
`t1 ≤ t2` in `[0,1]`, the result list kept at `t2` is no longer than the
one kept at `t1`. -/
theorem filter_by_similarity_threshold_monotone (results : List (Document × ℚ))
    (t1 t2 : ℚ) (ht1 : 0 ≤ t1) (ht2 : t2 ≤ 1) (h12 : t1 ≤ t2) :
    (_filter_by_similarity_threshold results (some t2)).length ≤
      (_filter_by_similarity_threshold results (some t1)).length := by
  simp only [_filter_by_similarity_threshold]
  rw [← List.countP_eq_length_filter, ← List.countP_eq_length_filter]
  apply List.countP_mono_left
  intro dr _ hdr
  simp only [decide_eq_true_eq] at hdr ⊢
  linarith

/-- Witness for C3 at a concrete result list and thresholds. -/
theorem filter_by_similarity_threshold_monotone_witness :
    (_filter_by_similarity_threshold [(exDoc, 1)] (some (3/4))).length ≤
      (_filter_by_similarity_threshold [(exDoc, 1)] (some (1/4))).length :=
  filter_by_similarity_threshold_monotone [(exDoc, 1)] (1/4) (3/4)
    (by norm_num) (by norm_num) (by norm_num)

/-- Claim C8: with no threshold, `_filter_by_similarity_threshold` is the
identity, and `chunks_retrieved_initial` and
`chunks_after_similarity_filter` are both reported and equal. -/
theorem no_threshold_filter_identity (results : List (Document × ℚ))
    (total_chunks : ℕ) (question : String) (llm_invoke : String → String)
    (use_relevance_filter : Bool) :
    _filter_by_similarity_threshold results none = results ∧
    (answer_question results total_chunks question llm_invoke none
      use_relevance_filter).2.2.chunks_retrieved_initial = results.length ∧
    (answer_question results total_chunks question llm_invoke none
      use_relevance_filter).2.2.chunks_after_similarity_filter = results.length := by
  refine ⟨rfl, ?_, ?_⟩ <;> simp [answer_question]

/-- Claim C7: the relevance-filtering stage is a pass-through identity:
for every input and both values of `use_relevance_filter` the emitted
metadata is exactly the metadata of the similarity-filtered results, the
`chunks_after_relevance_filter` diagnostic equals
`chunks_after_similarity_filter`, and the placeholder
`_check_relevance_llm` returns `(True, 1.0)` on every input. -/
theorem relevance_filter_passthrough (results : List (Document × ℚ))
    (total_chunks : ℕ) (question : String) (llm_invoke : String → String)
    (similarity_threshold : Option ℚ) (use_relevance_filter : Bool) :
    (answer_question results total_chunks question llm_invoke
        similarity_threshold use_relevance_filter).2.1 =
      (build_context_metadata 0
        (_filter_by_similarity_threshold results similarity_threshold)).2 ∧
    (answer_question results total_chunks question llm_invoke
        similarity_threshold use_relevance_filter).2.2.chunks_after_relevance_filter =
      (answer_question results total_chunks question llm_invoke
        similarity_threshold use_relevance_filter).2.2.chunks_after_similarity_filter ∧
    (∀ doc_content q, _check_relevance_llm doc_content q = (true, 1)) := by
  refine ⟨?_, ?_, fun _ _ => rfl⟩
  · cases similarity_threshold with
    | none => simp [answer_question, _filter_by_similarity_threshold]
    | some t => simp [answer_question]
  · cases similarity_threshold with
    | none => simp [answer_question]
    | some t => simp [answer_question]

/-- Claim C4: when zero passages survive filtering, `answer_question`
returns empty metadata, zero average/maximum/minimum similarity (without
dividing by zero or taking max/min of an empty list), and still invokes
the language model on the empty context. -/
theorem empty_results_safety (results : List (Document × ℚ))
    (total_chunks : ℕ) (question : String) (llm_invoke : String → String)
    (similarity_threshold : Option ℚ) (use_relevance_filter : Bool)
    (h : _filter_by_similarity_threshold results similarity_threshold = []) :
    (answer_question results total_chunks question llm_invoke
        similarity_threshold use_relevance_filter).2.1 = [] ∧
    (answer_question results total_chunks question llm_invoke
        similarity_threshold use_relevance_filter).2.2.avg_similarity_score = 0 ∧
    (answer_question results total_chunks question llm_invoke
        similarity_threshold use_relevance_filter).2.2.max_similarity_score = 0 ∧
    (answer_question results total_chunks question llm_invoke
        similarity_threshold use_relevance_filter).2.2.min_similarity_score = 0 ∧
    (answer_question results total_chunks question llm_invoke
        similarity_threshold use_relevance_filter).1
      = llm_invoke (prompt_format "" question) := by
  cases similarity_threshold with
  | none =>
    have hr : results = [] := h
    subst hr
    refine ⟨rfl, ?_, ?_, ?_, rfl⟩ <;>
      simp [answer_question, build_context_metadata, pyRound2_zero]
  | some t =>
    refine ⟨?_, ?_, ?_, ?_, ?_⟩ <;>
      simp [answer_question, h, build_context_metadata, pyRound2_zero]

/-- Witness for C4 at the concrete empty retrieval result. -/
theorem empty_results_safety_witness :
    (answer_question [] 0 "q" (fun _ => "A") none false).2.1 = [] ∧
    (answer_question [] 0 "q" (fun _ => "A") none false).2.2.avg_similarity_score = 0 ∧
    (answer_question [] 0 "q" (fun _ => "A") none false).2.2.max_similarity_score = 0 ∧
    (answer_question [] 0 "q" (fun _ => "A") none false).2.2.min_similarity_score = 0 ∧
    (answer_question [] 0 "q" (fun _ => "A") none false).1
      = (fun _ => "A") (prompt_format "" "q") :=
  empty_results_safety [] 0 "q" (fun _ => "A") none false rfl

/-- Claim C10: `delete_session` never fails and is idempotent: deleting a
session with no persisted index directory is a no-op, and deleting twice
equals deleting once. -/
theorem delete_session_idempotent (session_id : String) (s : AppState) :
    (s.vecdb_dirs.lookup session_id = none → delete_session session_id s = s) ∧
    delete_session session_id (delete_session session_id s)
      = delete_session session_id s := by
  constructor
  · intro h
    unfold delete_session
    rw [h]
    simp
  · by_cases h : (s.vecdb_dirs.lookup session_id).isSome
    · unfold delete_session
      rw [if_pos h]
      have h2 : (({ s with
          vecdb_dirs := s.vecdb_dirs.filter (fun p => p.1 != session_id) } :
            AppState).vecdb_dirs.lookup session_id) = none :=
        lookup_filter_ne session_id s.vecdb_dirs
      rw [if_neg (by simp [h2])]
    · unfold delete_session
      rw [if_neg h, if_neg h]

/-- Witness for C10 at a concrete state where the session id has no
persisted directory. -/
theorem delete_session_idempotent_witness :
    delete_session "s2" exState = exState ∧
    delete_session "s2" (delete_session "s2" exState)
      = delete_session "s2" exState :=
  ⟨(delete_session_idempotent "s2" exState).1 rfl,
    (delete_session_idempotent "s2" exState).2⟩

/-- Counterexample to C5 as stated: neither
`_filter_by_similarity_threshold` nor `answer_question` validates the
threshold, so a call with the out-of-range threshold `1.5` completes
normally — the language model is invoked and the pipeline statistics are
produced — instead of failing with an `InvalidFilterParameter` error
(no such error kind exists anywhere in the code). -/
theorem threshold_out_of_range_no_error :
    (answer_question [(exDoc, 1)] 1 "q" (fun _ => "A") (some (3/2)) false).1 = "A" ∧
    (answer_question [(exDoc, 1)] 1 "q" (fun _ => "A") (some (3/2))
      false).2.2.chunks_after_similarity_filter = 0 ∧
    (answer_question [(exDoc, 1)] 1 "q" (fun _ => "A") (some (3/2))
      false).2.2.similarity_threshold_applied = some (3/2) := by
  have h1 : _normalize_similarity_score 1 = 1/2 := by
    norm_num [_normalize_similarity_score]
  refine ⟨rfl, ?_, rfl⟩
  simp [answer_question, _filter_by_similarity_threshold, h1]
  norm_num

/-- Claim C5 (amended): a caller-supplied `similarity_threshold` outside
`[0,1]` is not rejected: the call proceeds normally for every threshold
(the threshold is recorded and the pipeline statistics are produced); a
threshold above 1 merely filters out every result, a threshold at or
below 0 keeps every result. -/
theorem threshold_not_validated (results : List (Document × ℚ))
    (total_chunks : ℕ) (question : String) (llm_invoke : String → String)
    (use_relevance_filter : Bool) (t : ℚ) :
    (answer_question results total_chunks question llm_invoke (some t)
      use_relevance_filter).2.2.similarity_threshold_applied = some t ∧
    (answer_question results total_chunks question llm_invoke (some t)
      use_relevance_filter).2.2.chunks_used_for_answer
        = (_filter_by_similarity_threshold results (some t)).length ∧
    (1 < t → _filter_by_similarity_threshold results (some t) = []) ∧
    (t ≤ 0 → _filter_by_similarity_threshold results (some t) = results) := by
  refine ⟨by simp [answer_question], by simp [answer_question], ?_, ?_⟩
  · intro ht
    simp only [_filter_by_similarity_threshold]
    rw [List.filter_eq_nil_iff]
    intro dr _
    simp only [decide_eq_true_eq, not_le]
    calc _normalize_similarity_score dr.2 ≤ 1 := normalize_le_one dr.2
      _ < t := ht
  · intro ht
    simp only [_filter_by_similarity_threshold]
    rw [List.filter_eq_self]
    intro dr _
    simp only [decide_eq_true_eq]
    calc t ≤ 0 := ht
      _ ≤ _normalize_similarity_score dr.2 := normalize_nonneg dr.2

/-- Witness for C5 (amended) at the concrete out-of-range threshold `1.5`. -/
theorem threshold_not_validated_witness :
    (answer_question [(exDoc, 1)] 1 "q" (fun _ => "A") (some (3/2))
      false).2.2.similarity_threshold_applied = some (3/2) ∧
    _filter_by_similarity_threshold [(exDoc, 1)] (some (3/2)) = [] :=
  ⟨(threshold_not_validated [(exDoc, 1)] 1 "q" (fun _ => "A") false (3/2)).1,
    (threshold_not_validated [(exDoc, 1)] 1 "q" (fun _ => "A") false
      (3/2)).2.2.1 (by norm_num)⟩

/-- Counterexample to C6 as stated: in the state `exState` the session
`s1` is registered both on disk and in the in-memory `sessions` dict.
After `delete_session`, `get_session_technical_info` does return `None`,
but a later `ask` for `s1` succeeds (the in-memory dict still holds the
handle; `delete_session` never touches it and `app.py` has no delete
endpoint), instead of failing with the not-found `SessionNotFound`
condition the claim requires. -/
theorem delete_session_ask_still_succeeds :
    get_session_technical_info "s1" (delete_session "s1" exState) = none ∧
    (ask (delete_session "s1" exState) "s1" "what" (fun _ => "A")).isOk = true :=
  ⟨rfl, rfl⟩

/-- Claim C6 (amended): after `delete_session(session_id)` a subsequent
`get_session_technical_info(session_id)` returns `None`; but
`delete_session` leaves the in-memory `sessions` dict unchanged, so a
later `ask` fails with the not-found (`Invalid session`) condition only
when the session id is absent from that in-memory dict. -/
theorem delete_session_then_get_none (s : AppState) (session_id : String) :
    get_session_technical_info session_id (delete_session session_id s) = none ∧
    (delete_session session_id s).sessions = s.sessions ∧
    (∀ question llm_invoke, pyStrip session_id ≠ "" → pyStrip question ≠ "" →
      question.length ≤ 1000 → s.sessions.lookup session_id = none →
      ask (delete_session session_id s) session_id question llm_invoke
        = .error .invalidSession) := by
  have hsess : (delete_session session_id s).sessions = s.sessions := by
    unfold delete_session
    split_ifs <;> rfl
  refine ⟨?_, hsess, ?_⟩
  · unfold delete_session get_session_technical_info
    by_cases h : (s.vecdb_dirs.lookup session_id).isSome
    · rw [if_pos h]
      rw [show (({ s with
          vecdb_dirs := s.vecdb_dirs.filter (fun p => p.1 != session_id) } :
            AppState).vecdb_dirs.lookup session_id) = none from
        lookup_filter_ne session_id s.vecdb_dirs]
    · rw [if_neg h]
      rw [Option.not_isSome_iff_eq_none] at h
      rw [h]
  · intro question llm_invoke hsid hq hlen hlook
    unfold ask
    rw [if_neg hsid, if_neg hq, if_neg (by omega), hsess, hlook]

/-- Witness for C6 (amended) at a concrete state and session id with no
in-memory registration. -/
theorem delete_session_then_get_none_witness :
    get_session_technical_info "s2" (delete_session "s2" exState) = none ∧
    ask (delete_session "s2" exState) "s2" "what" (fun _ => "A")
      = .error .invalidSession :=
  ⟨(delete_session_then_get_none exState "s2").1,
    (delete_session_then_get_none exState "s2").2.2 "what" (fun _ => "A")
      (by decide) (by decide) (by decide) rfl⟩

/-- Claim C9: when extraction yields no documents, the upload flow fails
with the `No text extracted from PDF` error raised before any index is
persisted; no session is registered, no persisted index directory is
created, and the already-written uploaded file is removed again. -/
theorem ingest_empty_extraction_atomic (s : AppState)
    (extract : String → List Document)
    (split_documents : List Document → List Document)
    (mk_search : List Document → String → List (Document × ℚ))
    (new_session_id filename : String) (file_size : ℕ)
    (hname : filename ≠ "")
    (hpdf : endsWithPdf (sanitize_filename filename) = true)
    (hsize : file_size ≤ 10 * 1024 * 1024)
    (hempty : extract (sanitize_filename filename) = []) :
    (upload_pdf s extract split_documents mk_search new_session_id filename
      file_size).1 = .error (.processingError "No text extracted from PDF") ∧
    (upload_pdf s extract split_documents mk_search new_session_id filename
      file_size).2.sessions = s.sessions ∧
    (upload_pdf s extract split_documents mk_search new_session_id filename
      file_size).2.vecdb_dirs = s.vecdb_dirs ∧
    sanitize_filename filename ∉ (upload_pdf s extract split_documents
      mk_search new_session_id filename file_size).2.uploads := by
  have hgt : ¬ (file_size > 10 * 1024 * 1024) := by omega
  refine ⟨?_, ?_, ?_, ?_⟩ <;>
    simp [upload_pdf, ingest_document, hname, hpdf, hgt, hempty, fsWrite,
      List.mem_filter]

/-- Witness for C9 at a concrete empty extraction. -/
theorem ingest_empty_extraction_atomic_witness :
    (upload_pdf exState (fun _ => []) id (fun _ _ => []) "sid" "doc.pdf"
      0).1 = .error (.processingError "No text extracted from PDF") ∧
    (upload_pdf exState (fun _ => []) id (fun _ _ => []) "sid" "doc.pdf"
      0).2.sessions = exState.sessions ∧
    (upload_pdf exState (fun _ => []) id (fun _ _ => []) "sid" "doc.pdf"
      0).2.vecdb_dirs = exState.vecdb_dirs ∧
    sanitize_filename "doc.pdf" ∉ (upload_pdf exState (fun _ => []) id
      (fun _ _ => []) "sid" "doc.pdf" 0).2.uploads :=
  ingest_empty_extraction_atomic exState (fun _ => []) id (fun _ _ => [])
    "sid" "doc.pdf" 0 (by decide) (by decide) (by decide) rfl

theorem answer_question_metadata_eq (results : List (Document × ℚ))
    (total_chunks : ℕ) (question : String) (llm_invoke : String → String)
    (similarity_threshold : Option ℚ) (use_relevance_filter : Bool) :
    (answer_question results total_chunks question llm_invoke
        similarity_threshold use_relevance_filter).2.1
      = (build_context_metadata 0
          (_filter_by_similarity_threshold results similarity_threshold)).2 := by
  cases similarity_threshold with
  | none => simp [answer_question, _filter_by_similarity_threshold]
  | some t => simp [answer_question]

/-- Counterexample to C2 as stated: the raw scores `[2, 3]` are in
ascending (distance) order, yet the emitted similarity percentages are
`[0, 50]` — increasing, not non-increasing — because the normalization
jumps from `0` at a raw score of `2` to `1/(1+(x-2))` just above `2`. -/
theorem metadata_scores_not_monotone :
    (([(exDoc, (2:ℚ)), (exDoc, 3)].map Prod.snd).Pairwise (· ≤ ·)) ∧
    ¬ ((((answer_question [(exDoc, (2:ℚ)), (exDoc, 3)] 2 "q" (fun _ => "A")
        none false).2.1).map (fun m => m.similarity_score)).Pairwise
        (fun a b => b ≤ a)) := by
  constructor
  · simp only [List.map_cons, List.map_nil, List.pairwise_cons]
    refine ⟨?_, ?_, List.Pairwise.nil⟩ <;> intro b hb <;> simp at hb <;>
      simp [hb] <;> norm_num
  · rw [answer_question_metadata_eq, build_context_metadata_map_score]
    have h2 : _normalize_similarity_score 2 = 0 := by
      norm_num [_normalize_similarity_score]
    have h3 : _normalize_similarity_score 3 = 1/2 := by
      norm_num [_normalize_similarity_score]
    simp only [_filter_by_similarity_threshold, List.map_cons, List.map_nil,
      h2, h3, List.pairwise_cons]
    intro hcon
    have := hcon.1 (pyRound1 (1/2 * 100)) (by simp)
    rw [show ((0:ℚ) * 100) = 0 by norm_num] at this
    have h0 : pyRound1 0 = 0 := by norm_num [pyRound1, pyRoundInt]
    have h50 : pyRound1 (1/2 * 100) = 50 := by
      norm_num [pyRound1, pyRoundInt]
    rw [h0, h50] at this
    norm_num at this

theorem normalize_antitone_on_l2 {a b : ℚ} (ha : 0 ≤ a) (hab : a ≤ b)
    (hb : b ≤ 2) : _normalize_similarity_score b ≤ _normalize_similarity_score a := by
  rw [normalize_eq_l2 ha (le_trans hab hb), normalize_eq_l2 (le_trans ha hab) hb]
  linarith

/-- Claim C2 (amended): with the relevance filter disabled, emitted
metadata always satisfies `chunk_id = i + 1` at every position `i`, and
the similarity percentages are non-increasing provided the raw scores
arrive in ascending order and all lie in `[0, 2]` (the L2-distance range;
outside it the normalization is not antitone, see the counterexample). -/
theorem metadata_chunk_ids_and_scores (results : List (Document × ℚ))
    (total_chunks : ℕ) (question : String) (llm_invoke : String → String)
    (similarity_threshold : Option ℚ)
    (hsorted : (results.map Prod.snd).Pairwise (· ≤ ·))
    (hrange : ∀ p ∈ results, 0 ≤ p.2 ∧ p.2 ≤ 2) :
    (∀ j (h : j < ((answer_question results total_chunks question llm_invoke
        similarity_threshold false).2.1).length),
      (((answer_question results total_chunks question llm_invoke
        similarity_threshold false).2.1).get ⟨j, h⟩).chunk_id = j + 1) ∧
    (((answer_question results total_chunks question llm_invoke
        similarity_threshold false).2.1).map
          (fun m => m.similarity_score)).Pairwise (fun a b => b ≤ a) := by
  have hsub : (_filter_by_similarity_threshold results
      similarity_threshold).Sublist results := by
    cases similarity_threshold with
    | none => exact List.Sublist.refl results
    | some t => exact List.filter_sublist results
  constructor
  · intro j h
    have hmd := answer_question_metadata_eq results total_chunks question
      llm_invoke similarity_threshold false
    have h' : j < ((build_context_metadata 0 (_filter_by_similarity_threshold
        results similarity_threshold)).2).length := by rw [← hmd]; exact h
    have hj := build_context_metadata_chunk_id
      (_filter_by_similarity_threshold results similarity_threshold) 0 j h'
    rw [List.get_of_eq hmd]
    simpa using hj
  · rw [answer_question_metadata_eq, build_context_metadata_map_score,
      List.pairwise_map]
    have hp : (_filter_by_similarity_threshold results
        similarity_threshold).Pairwise (fun a b => a.2 ≤ b.2) :=
      (List.pairwise_map.mp hsorted).sublist hsub
    refine hp.imp_of_mem ?_
    intro a b hma hmb hab
    have hra := hrange a (hsub.subset hma)
    have hrb := hrange b (hsub.subset hmb)
    have hn : _normalize_similarity_score b.2 ≤ _normalize_similarity_score a.2 :=
      normalize_antitone_on_l2 hra.1 hab hrb.2
    exact pyRound1_mono (by linarith)

/-- Witness for C2 (amended) at a concrete ascending result list with raw
scores in `[0, 2]`. -/
theorem metadata_chunk_ids_and_scores_witness :
    (((answer_question [(exDoc, (0:ℚ)), (exDoc, 1)] 2 "q" (fun _ => "A") none
      false).2.1).map (fun m => m.similarity_score)).Pairwise
        (fun a b => b ≤ a) :=
  (metadata_chunk_ids_and_scores [(exDoc, (0:ℚ)), (exDoc, 1)] 2 "q"
    (fun _ => "A") none
    (by
      simp only [List.map_cons, List.map_nil, List.pairwise_cons]
      refine ⟨?_, ?_, List.Pairwise.nil⟩ <;> intro b hb <;> simp at hb <;>
        simp [hb] <;> norm_num)
    (by
      intro p hp
      simp only [List.mem_cons, List.not_mem_nil, or_false] at hp
      rcases hp with h | h <;> subst h <;> constructor <;> norm_num)).2
